import Mathlib

/-!
Verification of the rover repository's core against its specification.

The development shallowly embeds the Python sources:
* `rover/core/motor_controller.py` — the motor controller's pin writes,
  modelled as explicit write lists applied to a pin table;
* `rover/utils/gpio_mock.py` and `rover/utils/gpio_real.py` — the two GPIO
  driver variants (the mock stores values unconditionally, the real variant
  clamps PWM duty values and snaps digital values to 0/1);
* `rover/utils/gpio_factory.py` — environment detection and driver selection;
* `rover/vision/camera_stream_simple.py` — the capture backend probe chain,
  `get_frame`, and the streaming frame generator.

Python floats are modelled as rationals, machine integers as `Int`, and
fallible calls as `Except` or as explicit outcome oracles.
-/

/-- Pointwise update of a pin table, mirroring a dictionary store
`pin_states[pin] = value` in the Python drivers. -/
def upd (s : Nat → Int) (p : Nat) (v : Int) : Nat → Int :=
  fun q => if q = p then v else s q

/-- Python `int()` applied to a rational: truncation toward zero,
written with the executable `Rat.floor` (for negative arguments,
truncation toward zero is `-⌊-q⌋`, the ceiling). -/
def truncQ (q : ℚ) : ℤ :=
  if 0 ≤ q then Rat.floor q else -(Rat.floor (-q))

/-- The clamp `max(0, min(100, value))` used by the real driver's
`set_pin` on PWM pins. -/
def clampInt (v : Int) : Int :=
  max 0 (min 100 v)

/-- Pin roles of one motor side, as in `MotorController.__init__`. -/
structure MotorPins where
  forward : Nat
  backward : Nat
  enable : Nat

/-- Left motor pins: forward 17, backward 18, enable 22. -/
def left_motor_pins : MotorPins := ⟨17, 18, 22⟩

/-- Right motor pins: forward 23, backward 24, enable 25. -/
def right_motor_pins : MotorPins := ⟨23, 24, 25⟩

/-- The two `set_pin` writes issued by `_set_motor_direction`, in source
order: the forward branch writes the forward pin high first, then the
backward pin low; the backward branch writes the forward pin low first,
then the backward pin high.  Unrecognized direction strings write
nothing, as in the source's if/elif with no else. -/
def setMotorDirection (direction : String) (pins : MotorPins) : List (Nat × Int) :=
  if direction = "forward" then [(pins.forward, 1), (pins.backward, 0)]
  else if direction = "backward" then [(pins.forward, 0), (pins.backward, 1)]
  else []

/-- The two `set_pin` writes issued by `_set_motor_speed`: the truncated
percent `int(speed * 100)` to both enable pins, left then right. -/
def setMotorSpeed (speed : ℚ) : List (Nat × Int) :=
  [(left_motor_pins.enable, truncQ (speed * 100)),
   (right_motor_pins.enable, truncQ (speed * 100))]

/-- Public operations of `MotorController`. -/
inductive Op where
  | moveForward (speed : ℚ)
  | moveBackward (speed : ℚ)
  | turnLeft (speed : ℚ)
  | turnRight (speed : ℚ)
  | stop
  | moveForwardInSeconds (speed : ℚ) (seconds : ℚ)

/-- The ordered list of individual `set_pin` writes an operation issues,
read off the Python methods.  `move_forward_in_seconds` issues the
forward writes, sleeps, and then runs `stop()`. -/
def opWrites : Op → List (Nat × Int)
  | Op.moveForward sp =>
      setMotorDirection "forward" left_motor_pins ++
      setMotorDirection "forward" right_motor_pins ++ setMotorSpeed sp
  | Op.moveBackward sp =>
      setMotorDirection "backward" left_motor_pins ++
      setMotorDirection "backward" right_motor_pins ++ setMotorSpeed sp
  | Op.turnLeft sp =>
      setMotorDirection "backward" left_motor_pins ++
      setMotorDirection "forward" right_motor_pins ++ setMotorSpeed sp
  | Op.turnRight sp =>
      setMotorDirection "forward" left_motor_pins ++
      setMotorDirection "backward" right_motor_pins ++ setMotorSpeed sp
  | Op.stop => setMotorSpeed 0
  | Op.moveForwardInSeconds sp _secs =>
      setMotorDirection "forward" left_motor_pins ++
      setMotorDirection "forward" right_motor_pins ++ setMotorSpeed sp ++
      setMotorSpeed 0

/-- Apply a list of writes through the mock driver's `set_pin`, which
stores each value unconditionally. -/
def applyWrites (s : Nat → Int) (ws : List (Nat × Int)) : Nat → Int :=
  ws.foldl (fun t w => upd t w.1 w.2) s

/-- One complete motor operation on the mock driver's pin table. -/
def applyOp (s : Nat → Int) (op : Op) : Nat → Int :=
  applyWrites s (opWrites op)

/-- A sequence of complete motor operations on the mock driver. -/
def runOps : (Nat → Int) → List Op → (Nat → Int)
  | s, [] => s
  | s, op :: rest => runOps (applyOp s op) rest

/-- Mock pin table right after `MotorController` construction: the mock's
`setup_pin` initializes each configured pin to 0, and `get_pin_state`
reads 0 for pins never set, so the table is all zeros. -/
def mcInit : Nat → Int :=
  applyWrites (fun _ => 0) [(17, 0), (18, 0), (22, 0), (23, 0), (24, 0), (25, 0)]

/-- Per-side direction safety: on each motor side at least one of the
forward/backward pins is low. -/
def dirSafe (s : Nat → Int) : Prop :=
  (s 17 = 0 ∨ s 18 = 0) ∧ (s 23 = 0 ∨ s 24 = 0)

instance (s : Nat → Int) : Decidable (dirSafe s) := by
  unfold dirSafe; infer_instance

/-- A state reached after the complete operations `ops` followed by the
first `k` individual `set_pin` writes of the operation `next` — the
intermediate states the claim ranges over. -/
def interState (ops : List Op) (next : Op) (k : Nat) : Nat → Int :=
  applyWrites (runOps mcInit ops) (List.take k (opWrites next))

/-! ### GPIO driver variants (`gpio_mock.py`, `gpio_real.py`) -/

/-- The mock driver's `setup_pin` (`gpio_mock.py`): it accepts any mode
string, initializes the stored value to 0, and never raises. -/
def mockSetupPin (p : Nat) (_mode : String) (s : Nat → Int) : Except Unit (Nat → Int) :=
  Except.ok (upd s p 0)

/-- State of the real driver: recorded pin values and the set of pins
holding an active PWM channel (`pwm_objects`). -/
structure RealState where
  pins : Nat → Int
  pwm : Nat → Bool

/-- The real driver's `setup_pin` (`gpio_real.py`): mode `OUT` configures
a digital line low; mode `PWM` starts a duty-cycle channel at 0; any
other mode falls through the if/elif and silently does nothing. -/
def realSetupPin (p : Nat) (mode : String) (s : RealState) : Except Unit RealState :=
  if mode = "OUT" then Except.ok ⟨upd s.pins p 0, s.pwm⟩
  else if mode = "PWM" then
    Except.ok ⟨upd s.pins p 0, fun q => q == p || s.pwm q⟩
  else Except.ok s

/-- Unwrap the (always successful) `realSetupPin` for state folds. -/
def realSetupPinP (p : Nat) (mode : String) (s : RealState) : RealState :=
  match realSetupPin p mode s with
  | Except.ok r => r
  | Except.error _ => s

/-- The real driver's `set_pin`: a pin with an active PWM channel stores
the duty value clamped by `max(0, min(100, int(value)))`; a digital pin
stores 1 when `value > 0` and 0 otherwise. -/
def realSetPin (s : RealState) (p : Nat) (v : Int) : RealState :=
  if s.pwm p then ⟨upd s.pins p (clampInt v), s.pwm⟩
  else if 0 < v then ⟨upd s.pins p 1, s.pwm⟩
  else ⟨upd s.pins p 0, s.pwm⟩

/-- The empty real-driver state before any `setup_pin`. -/
def realEmpty : RealState := ⟨fun _ => 0, fun _ => false⟩

/-- Real-driver state after `MotorController._setup_pins`: direction pins
17, 18, 23, 24 as `OUT`, enable pins 22, 25 as `PWM`, in source order. -/
def realInit : RealState :=
  realSetupPinP 25 "PWM"
    (realSetupPinP 24 "OUT"
      (realSetupPinP 23 "OUT"
        (realSetupPinP 22 "PWM"
          (realSetupPinP 18 "OUT"
            (realSetupPinP 17 "OUT" realEmpty)))))

/-- One complete motor operation written through the real driver. -/
def applyOpReal (s : RealState) (op : Op) : RealState :=
  (opWrites op).foldl (fun t w => realSetPin t w.1 w.2) s

/-- The four speed-taking movement operations of the controller. -/
inductive MoveKind where
  | forward
  | backward
  | left
  | right
deriving DecidableEq

/-- The movement operation selected by a `MoveKind`. -/
def mkOp : MoveKind → ℚ → Op
  | MoveKind.forward, sp => Op.moveForward sp
  | MoveKind.backward, sp => Op.moveBackward sp
  | MoveKind.left, sp => Op.turnLeft sp
  | MoveKind.right, sp => Op.turnRight sp

/-- The claim's clamped percent: speed clamped into [0, 1], then
converted to an integer percent. -/
def clampPercent (speed : ℚ) : ℤ :=
  truncQ (max 0 (min 1 speed) * 100)

/-! ### Driver factory (`gpio_factory.py`) -/

/-- Whether the list starts with the given pattern of characters. -/
def startsWithB : List Char → List Char → Bool
  | [], _ => true
  | _ :: _, [] => false
  | a :: as, b :: bs => a == b && startsWithB as bs

/-- Whether the pattern occurs contiguously anywhere in the list —
Python's `needle in haystack` on strings. -/
def listContainsB (needle : List Char) : List Char → Bool
  | [] => needle.isEmpty
  | c :: rest => startsWithB needle (c :: rest) || listContainsB needle rest

/-- Python `needle in hay` after the model's lowercasing. -/
def containsSub (needle : String) (hay : List Char) : Bool :=
  listContainsB needle.toList hay

/-- Python `s.lower()` as a character list. -/
def lowerChars (s : String) : List Char :=
  List.map Char.toLower s.toList

/-- Environment visible to `_is_running_on_pi`: the contents of the two
descriptor files (`none` models a read that raises), the value of the
`RASPBERRY_PI` environment variable, and whether `RPi.GPIO` imports. -/
structure PiEnv where
  devicetree : Option String
  cpuinfo : Option String
  envFlag : Option String
  rpiImportable : Bool

/-- Python truthiness of `os.environ.get(...)`: set and non-empty. -/
def envTruthy : Option String → Bool
  | none => false
  | some s => !s.isEmpty

/-- `_is_running_on_pi` as written: method 1 returns the substring test
whenever the device-tree model file is readable (its negative result
also returns); method 2 likewise for `/proc/cpuinfo`; method 3 returns
true only on a truthy flag and otherwise falls through to method 4. -/
def is_running_on_pi (e : PiEnv) : Bool :=
  match e.devicetree with
  | some c => containsSub ("raspberry pi") (lowerChars c)
  | none =>
    match e.cpuinfo with
    | some c =>
        containsSub ("raspberry") (lowerChars c) || containsSub ("bcm") (lowerChars c)
    | none =>
        if envTruthy e.envFlag then true else e.rpiImportable

/-- Environment visible to `create_gpio_controller`. -/
structure FactoryEnv where
  pi : PiEnv
  realImportOk : Bool
  realCtorOk : Bool
  mockImportOk : Bool

/-- The two driver variants the factory can construct. -/
inductive GpioDriver where
  | real
  | mock
deriving DecidableEq

/-- `_create_mock_gpio`: imports the mock module or raises the single
`ImportError("No GPIO controller available")`. -/
def create_mock_gpio (e : FactoryEnv) : Except String GpioDriver :=
  if e.mockImportOk then Except.ok GpioDriver.mock
  else Except.error ("No GPIO controller available")

/-- `create_gpio_controller`: on a positive detection try the real
driver, catching any import or construction error and falling back to
the mock; on a negative detection construct the mock directly. -/
def create_gpio_controller (e : FactoryEnv) : Except String GpioDriver :=
  if is_running_on_pi e.pi then
    if e.realImportOk && e.realCtorOk then Except.ok GpioDriver.real
    else create_mock_gpio e
  else create_mock_gpio e

/-- Positivity of detection check 1 (device-tree descriptor), as the
claim reads it. -/
def checkDevicetreePos (e : PiEnv) : Bool :=
  match e.devicetree with
  | some c => containsSub ("raspberry pi") (lowerChars c)
  | none => false

/-- Positivity of detection check 2 (CPU descriptor), as the claim
reads it. -/
def checkCpuPos (e : PiEnv) : Bool :=
  match e.cpuinfo with
  | some c => containsSub ("raspberry") (lowerChars c) || containsSub ("bcm") (lowerChars c)
  | none => false

/-- Detection as the claim describes it: checks evaluated in order,
short-circuiting only on the first positive, so the outcome is positive
exactly when some check is positive. -/
def specIsPi (e : PiEnv) : Bool :=
  checkDevicetreePos e || checkCpuPos e || envTruthy e.envFlag || e.rpiImportable

/-- The factory as the claim describes it: the claim's detection feeding
the same branch structure. -/
def specFactory (e : FactoryEnv) : Except String GpioDriver :=
  if specIsPi e.pi then
    if e.realImportOk && e.realCtorOk then Except.ok GpioDriver.real
    else create_mock_gpio e
  else create_mock_gpio e

/-- Detection as the code actually behaves (the amended claim): a
readable device-tree descriptor decides the outcome by itself; failing
that, a readable CPU descriptor decides it; only when both reads raise
are the environment flag and then importability consulted, each
short-circuiting on a positive. -/
def amendedDetect (e : PiEnv) : Bool :=
  (e.devicetree.isSome && checkDevicetreePos e) ||
  (!e.devicetree.isSome && e.cpuinfo.isSome && checkCpuPos e) ||
  (!e.devicetree.isSome && !e.cpuinfo.isSome && envTruthy e.envFlag) ||
  (!e.devicetree.isSome && !e.cpuinfo.isSome && !envTruthy e.envFlag && e.rpiImportable)

/-- Concrete environment refuting the claim's short-circuit-on-positive
reading: the device-tree file is readable but names another board, the
override flag is set, and the real driver would construct fine. -/
def factoryCexEnv : FactoryEnv :=
  ⟨⟨some ("generic board"), none, some ("1"), false⟩, true, true, true⟩

/-! ### Capture backend probe chain (`camera_stream_simple.py`) -/

/-- The three candidate backends, in probe order. -/
inductive CamTag where
  | opencv
  | picamera2
  | legacy
deriving DecidableEq

/-- Outcome record of one candidate's attempt: whether it succeeded,
whether it acquired a capture resource, whether it explicitly released
or stopped that resource, whether it performed a test capture, and what
it left `self.camera` pointing at (`none` = untouched, `some b` =
assigned, with `b` saying whether the reference is non-None). -/
structure TryResult where
  ok : Bool
  acquired : Bool
  released : Bool
  testCaptured : Bool
  camSet : Option Bool
deriving DecidableEq

/-- Oracle for `_try_opencv`: whether any probed index opens, whether a
property-set call raises, whether `read()` raises, and whether `read()`
returns `ret` true with a non-None frame. -/
structure CvEnv where
  opens : Bool
  setRaises : Bool
  readRaises : Bool
  readOk : Bool
deriving DecidableEq

/-- `_try_opencv`: `self.camera` is always assigned.  An exception after
a successful open returns through the handler without releasing; a clean
test-capture failure falls through to `release()`. -/
def tryOpenCV (e : CvEnv) : TryResult :=
  if e.opens then
    if e.setRaises then ⟨false, true, false, false, some true⟩
    else if e.readRaises then ⟨false, true, false, true, some true⟩
    else if e.readOk then ⟨true, true, false, true, some true⟩
    else ⟨false, true, true, true, some true⟩
  else ⟨false, false, true, false, some true⟩

/-- Oracle for `_try_basic_picamera2`: importability, constructor
success, configure-and-start success, whether the test `capture_array`
raises, and whether it returns a non-empty frame. -/
structure Pi2Env where
  importOk : Bool
  ctorOk : Bool
  configOk : Bool
  capRaises : Bool
  capNonEmpty : Bool
deriving DecidableEq

/-- `_try_basic_picamera2`: import or constructor failure touches
nothing; a configure/start exception returns without stopping; a failed
or raising test capture runs the cleanup (`stop()`, `camera = None`);
a non-empty test frame accepts the backend. -/
def tryPi2 (e : Pi2Env) : TryResult :=
  if !e.importOk || !e.ctorOk then ⟨false, false, false, false, none⟩
  else if !e.configOk then ⟨false, true, false, false, some true⟩
  else if e.capRaises then ⟨false, true, true, true, some false⟩
  else if e.capNonEmpty then ⟨true, true, false, true, some true⟩
  else ⟨false, true, true, true, some false⟩

/-- Oracle for `_try_legacy_picamera`: importability, constructor
success, and success of the resolution/framerate assignments. -/
structure LegacyEnv where
  importOk : Bool
  ctorOk : Bool
  configOk : Bool
deriving DecidableEq

/-- `_try_legacy_picamera`: after a successful open and configuration it
sleeps and accepts the backend without performing any test capture. -/
def tryLegacy (e : LegacyEnv) : TryResult :=
  if !e.importOk || !e.ctorOk then ⟨false, false, false, false, none⟩
  else if !e.configOk then ⟨false, true, false, false, some true⟩
  else ⟨true, true, false, false, some true⟩

/-- Oracles for the whole probe chain. -/
structure CamEnv where
  cv : CvEnv
  pi2 : Pi2Env
  leg : LegacyEnv
deriving DecidableEq

/-- Result of `_setup_camera`: the selected tag, the attempt records of
the candidates that ran, and whether `self.camera` is non-None. -/
structure SetupResult where
  tag : Option CamTag
  cvRes : TryResult
  pi2Res : Option TryResult
  legRes : Option TryResult
  present : Bool
deriving DecidableEq

/-- Thread the `self.camera` reference through one attempt. -/
def updPresent (p : Bool) : Option Bool → Bool
  | none => p
  | some b => b

/-- `_setup_camera`: try the candidates in order, stopping at the first
whose try-method returns true; if all fail, the camera type is None. -/
def setupCamera (env : CamEnv) : SetupResult :=
  let r1 := tryOpenCV env.cv
  let p1 := updPresent false r1.camSet
  if r1.ok then ⟨some CamTag.opencv, r1, none, none, p1⟩
  else
    let r2 := tryPi2 env.pi2
    let p2 := updPresent p1 r2.camSet
    if r2.ok then ⟨some CamTag.picamera2, r1, some r2, none, p2⟩
    else
      let r3 := tryLegacy env.leg
      let p3 := updPresent p2 r3.camSet
      if r3.ok then ⟨some CamTag.legacy, r1, some r2, some r3, p3⟩
      else ⟨none, r1, some r2, some r3, p3⟩

/-- The attempt record `_setup_camera` kept for a given candidate. -/
def resultFor (r : SetupResult) : CamTag → Option TryResult
  | CamTag.opencv => some r.cvRes
  | CamTag.picamera2 => r.pi2Res
  | CamTag.legacy => r.legRes

/-- The claim's acceptance condition on the selected candidate: its test
capture was performed and yielded a non-empty frame. -/
def selectionOkB (r : SetupResult) : Bool :=
  match r.tag with
  | none => true
  | some t =>
    match resultFor r t with
    | some tr => tr.ok && tr.testCaptured
    | none => false

/-- The claim's resource condition on one attempt record: a failed
candidate that acquired resources released them. -/
def resourceOkB : Option TryResult → Bool
  | none => true
  | some tr => !(!tr.ok && tr.acquired && !tr.released)

/-- Claim C7 as stated, at one probe environment: the selected backend
passed a test capture, and every failed candidate released what it
acquired. -/
def probeClaim (env : CamEnv) : Prop :=
  selectionOkB (setupCamera env) = true ∧
  resourceOkB (resultFor (setupCamera env) CamTag.opencv) = true ∧
  resourceOkB (resultFor (setupCamera env) CamTag.picamera2) = true ∧
  resourceOkB (resultFor (setupCamera env) CamTag.legacy) = true

/-- Probe environment refuting claim C7: no camera index opens for
OpenCV, the picamera2 import fails, and the legacy candidate opens and
configures fine — so it is accepted without any test capture. -/
def camCexEnv : CamEnv :=
  ⟨⟨false, false, false, false⟩, ⟨false, true, true, false, true⟩, ⟨true, true, true⟩⟩

/-- Amended success condition for the OpenCV candidate: it opened, no
call raised, and the test capture returned a non-empty frame. -/
def cvSucc (e : CvEnv) : Bool :=
  e.opens && !e.setRaises && !e.readRaises && e.readOk

/-- The OpenCV attempt raised after opening. -/
def cvRaised (e : CvEnv) : Bool :=
  e.opens && (e.setRaises || e.readRaises)

/-- The picamera2 attempt acquired the camera device. -/
def pi2Acquired (e : Pi2Env) : Bool :=
  e.importOk && e.ctorOk

/-- The picamera2 attempt raised out of its inner logic (configure or
start failed; a raising test capture is caught internally). -/
def pi2Raised (e : Pi2Env) : Bool :=
  pi2Acquired e && !e.configOk

/-- Amended success condition for picamera2: constructed, configured,
and the test capture returned a non-empty frame without raising. -/
def pi2Succ (e : Pi2Env) : Bool :=
  pi2Acquired e && e.configOk && !e.capRaises && e.capNonEmpty

/-- Amended success condition for the legacy candidate: import,
construction and configuration succeed — no test capture involved. -/
def legSucc (e : LegacyEnv) : Bool :=
  e.importOk && e.ctorOk && e.configOk

/-- The backend the amended claim says the probe chain selects. -/
def expectedTag (env : CamEnv) : Option CamTag :=
  if cvSucc env.cv then some CamTag.opencv
  else if pi2Succ env.pi2 then some CamTag.picamera2
  else if legSucc env.leg then some CamTag.legacy
  else none

/-! ### `get_frame` -/

/-- Outcome of the one backend capture call inside `get_frame`. -/
inductive CapOutcome where
  | good
  | empty
  | raises
deriving DecidableEq

/-- Stream object state that `get_frame` consults: whether
`self.camera` is non-None and the selected `self.camera_type`. -/
structure CamState where
  camera : Bool
  camera_type : Option CamTag
deriving DecidableEq

/-- The stream state `__init__` leaves behind for a probe environment. -/
def stateAfterSetup (env : CamEnv) : CamState :=
  ⟨(setupCamera env).present, (setupCamera env).tag⟩

/-- Number of backend capture calls one `get_frame` invocation makes:
none when the guard returns early, exactly one otherwise. -/
def captureCalls (s : CamState) : Nat :=
  if !s.camera || s.camera_type.isNone then 0 else 1

/-- The body of `get_frame`'s try block, before the except handler: the
OpenCV and picamera2 branches return None on an empty result; the
legacy branch fills and returns a buffer with no emptiness check; a
raising capture escapes as an exception. -/
def get_frame_body (s : CamState) (oc : CapOutcome) : Except Unit (Option Unit) :=
  match s.camera_type with
  | some CamTag.opencv =>
    match oc with
    | CapOutcome.good => Except.ok (some ())
    | CapOutcome.empty => Except.ok none
    | CapOutcome.raises => Except.error ()
  | some CamTag.picamera2 =>
    match oc with
    | CapOutcome.good => Except.ok (some ())
    | CapOutcome.empty => Except.ok none
    | CapOutcome.raises => Except.error ()
  | some CamTag.legacy =>
    match oc with
    | CapOutcome.good => Except.ok (some ())
    | CapOutcome.empty => Except.ok (some ())
    | CapOutcome.raises => Except.error ()
  | none => Except.ok none

/-- `get_frame`: the early guard returns None when the camera reference
or the camera type is None; otherwise the try body runs and the except
handler converts any exception to None. -/
def get_frame (s : CamState) (oc : CapOutcome) : Option Unit :=
  if !s.camera || s.camera_type.isNone then none
  else
    match get_frame_body s oc with
    | Except.ok r => r
    | Except.error _ => none

/-! ### Streaming frame generator (`generate_frames`) -/

/-- Outcome of one loop iteration's attempt: a frame, a clean "no
frame", or an exception absorbed by the iteration's except handler. -/
inductive IterOutcome where
  | frame
  | noframe
  | raises
deriving DecidableEq

/-- One iteration of `generate_frames`, mapping the current consecutive
error count and the attempt outcome to the updated count and the delay
slept at the end of the iteration. -/
def genStep (fr : ℚ) (c : Nat) (o : IterOutcome) : Nat × ℚ :=
  match o with
  | IterOutcome.frame =>
    let c2 := 0
    (c2, if 5 < c2 then (1 : ℚ) / 2 else 1 / fr)
  | IterOutcome.noframe =>
    let c2 := c + 1
    (c2, if 5 < c2 then (1 : ℚ) / 2 else 1 / fr)
  | IterOutcome.raises => (c + 1, 1)

/-- One iteration as claim C9 describes it: a frame resets the count and
any failure increments it; the delay is 1.0 on an exception, else 0.5
when the count exceeds 5, else `1/framerate`. -/
def genStepSpec (fr : ℚ) (c : Nat) (o : IterOutcome) : Nat × ℚ :=
  let c2 := if o = IterOutcome.frame then 0 else c + 1
  (c2, if o = IterOutcome.raises then (1 : ℚ)
       else if 5 < c2 then (1 : ℚ) / 2 else 1 / fr)

/-- The delays of successive iterations from a given starting count. -/
def genDelays (fr : ℚ) : Nat → List IterOutcome → List ℚ
  | _, [] => []
  | c, o :: os =>
    let r := genStep fr c o
    r.2 :: genDelays fr r.1 os

/-- Stream state shared between the class and its generators: only the
streaming flag — the class stores no consecutive error count. -/
structure StreamState where
  is_streaming : Bool
deriving DecidableEq

/-- `start_streaming`: set the flag (idempotent). -/
def start_streaming (_s : StreamState) : StreamState := ⟨true⟩

/-- `stop_streaming`: clear the flag (idempotent). -/
def stop_streaming (_s : StreamState) : StreamState := ⟨false⟩

/-- One invocation of `generate_frames` run over a list of per-iteration
outcomes: the local `consecutive_errors` starts at 0; nothing runs when
the stream is stopped. -/
def generateFrames (s : StreamState) (fr : ℚ) (outs : List IterOutcome) : List ℚ :=
  if s.is_streaming then genDelays fr 0 outs else []

/-- Probe environment in which every candidate fails, leaving the
camera type None. -/
def camFailEnv : CamEnv :=
  ⟨⟨false, false, false, false⟩, ⟨false, false, false, false, false⟩, ⟨false, false, false⟩⟩

/-- Probe environment in which the OpenCV candidate succeeds. -/
def camOkEnv : CamEnv :=
  ⟨⟨true, false, false, true⟩, ⟨false, false, false, false, false⟩, ⟨false, false, false⟩⟩

/-! ## Theorems -/

/-- The executable `Rat.floor` agrees with the order-theoretic floor. -/
theorem ratFloor_eq (q : ℚ) : Rat.floor q = ⌊q⌋ := by
  rw [Rat.floor_def', Rat.floor_def]

/-- On nonnegative rationals, Python truncation is the floor. -/
theorem truncQ_of_nonneg {q : ℚ} (h : 0 ≤ q) : truncQ q = ⌊q⌋ := by
  rw [truncQ, if_pos h, ratFloor_eq]

/-- On negative rationals, Python truncation is the ceiling. -/
theorem truncQ_of_neg {q : ℚ} (h : q < 0) : truncQ q = ⌈q⌉ := by
  rw [truncQ, if_neg (not_le.mpr h), ratFloor_eq, Int.floor_neg, neg_neg]

/-- Every complete operation leaves the direction pins safe: the three
non-stop shapes rewrite both sides' direction pins to (1,0) or (0,1),
and `stop` does not touch them. -/
theorem dirSafe_applyOp (s : Nat → Int) (op : Op) (h : dirSafe s) :
    dirSafe (applyOp s op) := by
  cases op with
  | moveForward sp => exact ⟨Or.inr rfl, Or.inr rfl⟩
  | moveBackward sp => exact ⟨Or.inl rfl, Or.inl rfl⟩
  | turnLeft sp => exact ⟨Or.inl rfl, Or.inr rfl⟩
  | turnRight sp => exact ⟨Or.inr rfl, Or.inl rfl⟩
  | stop => exact h
  | moveForwardInSeconds sp secs => exact ⟨Or.inr rfl, Or.inr rfl⟩

/-- Direction safety is preserved along any operation sequence. -/
theorem dirSafe_runOps (ops : List Op) : ∀ s, dirSafe s → dirSafe (runOps s ops) := by
  induction ops with
  | nil => intro s h; exact h
  | cons op rest ih => intro s h; exact ih _ (dirSafe_applyOp s op h)

/-- Claim C1, refuted as stated: starting from the state left by
`move_backward(1)`, the first individual write of `move_forward(1)`
(forward pin high) happens before backward is cleared, so the left
motor's forward and backward pins are both high in that intermediate
state. -/
theorem C1_counterexample :
    ¬ dirSafe (interState [Op.moveBackward 1] (Op.moveForward 1) 1) := by
  decide

/-- Claim C1 amended: at every operation boundary — after any sequence
of complete `MotorController` operations — no motor side has its
forward and backward pins simultaneously high.  (The intermediate state
inside a backward-to-forward direction change violates the original
claim, as `C1_counterexample` shows.) -/
theorem C1_boundary_invariant (ops : List Op) : dirSafe (runOps mcInit ops) :=
  dirSafe_runOps ops mcInit (by decide)

/-- The mock-table value each movement operation leaves on the left
enable pin is the raw truncated percent. -/
theorem mockEnableLeft (sp : ℚ) (k : MoveKind) (s : Nat → Int) :
    applyOp s (mkOp k sp) 22 = truncQ (sp * 100) := by
  cases k <;> rfl

/-- The mock-table value each movement operation leaves on the right
enable pin is the raw truncated percent. -/
theorem mockEnableRight (sp : ℚ) (k : MoveKind) (s : Nat → Int) :
    applyOp s (mkOp k sp) 25 = truncQ (sp * 100) := by
  cases k <;> rfl

/-- The real-driver value each movement operation leaves on the left
enable pin is the clamp of the truncated percent. -/
theorem realEnableLeft (sp : ℚ) (k : MoveKind) :
    (applyOpReal realInit (mkOp k sp)).pins 22 = clampInt (truncQ (sp * 100)) := by
  cases k <;> rfl

/-- The real-driver value each movement operation leaves on the right
enable pin is the clamp of the truncated percent. -/
theorem realEnableRight (sp : ℚ) (k : MoveKind) :
    (applyOpReal realInit (mkOp k sp)).pins 25 = clampInt (truncQ (sp * 100)) := by
  cases k <;> rfl

/-- For speeds in [0,1] the truncated percent lies in [0,100], so the
real driver's clamp is the identity on it. -/
theorem clampInt_of_unit {sp : ℚ} (h0 : 0 ≤ sp) (h1 : sp ≤ 1) :
    clampInt (truncQ (sp * 100)) = ⌊sp * 100⌋ := by
  have hnn : (0 : ℚ) ≤ sp * 100 := mul_nonneg h0 (by norm_num)
  have htr : truncQ (sp * 100) = ⌊sp * 100⌋ := truncQ_of_nonneg hnn
  have hlb : (0 : ℤ) ≤ ⌊sp * 100⌋ := Int.floor_nonneg.mpr hnn
  have hub : ⌊sp * 100⌋ ≤ 100 := by
    have hle : sp * 100 ≤ (100 : ℚ) := by nlinarith
    calc ⌊sp * 100⌋ ≤ ⌊(100 : ℚ)⌋ := Int.floor_le_floor hle
      _ = 100 := by norm_num
  rw [clampInt, htr, min_eq_right hub, max_eq_right hlb]

/-- Claim C2: for speeds in [0,1], each of the four movement operations
applies `floor(speed*100)` — the truncation-toward-zero of
`speed*100` — to both enable pins, on the mock table and on the real
driver alike. -/
theorem C2_truncation (sp : ℚ) (k : MoveKind) (s : Nat → Int)
    (h0 : 0 ≤ sp) (h1 : sp ≤ 1) :
    applyOp s (mkOp k sp) 22 = ⌊sp * 100⌋ ∧
    applyOp s (mkOp k sp) 25 = ⌊sp * 100⌋ ∧
    (applyOpReal realInit (mkOp k sp)).pins 22 = ⌊sp * 100⌋ ∧
    (applyOpReal realInit (mkOp k sp)).pins 25 = ⌊sp * 100⌋ := by
  have hnn : (0 : ℚ) ≤ sp * 100 := mul_nonneg h0 (by norm_num)
  have htr : truncQ (sp * 100) = ⌊sp * 100⌋ := truncQ_of_nonneg hnn
  refine ⟨?_, ?_, ?_, ?_⟩
  · rw [mockEnableLeft, htr]
  · rw [mockEnableRight, htr]
  · rw [realEnableLeft, clampInt_of_unit h0 h1]
  · rw [realEnableRight, clampInt_of_unit h0 h1]

/-- Witness for `C2_truncation` at speed 1/3: both enable pins read 33,
the floor (not the rounding) of 100/3. -/
theorem C2_truncation_witness :
    (0 : ℚ) ≤ 1/3 ∧ (1/3 : ℚ) ≤ 1 ∧
    applyOp mcInit (mkOp MoveKind.forward (1/3)) 22 = 33 := by
  refine ⟨by norm_num, by norm_num, ?_⟩
  have h := (C2_truncation (1/3) MoveKind.forward mcInit (by norm_num) (by norm_num)).1
  rw [h]
  norm_num

/-- The value `stop()` writes to the enable pins is zero. -/
theorem truncQ_zero : truncQ ((0 : ℚ) * 100) = 0 := by
  rw [truncQ_of_nonneg (by norm_num)]
  norm_num

/-- Claim C3: after any operation sequence, `stop()` zeroes both enable
pins and leaves all four direction pins exactly as they were; in
particular after `move_forward(0.5)`, `turn_left(0.5)`, `stop()` the
left motor reads backward=1/forward=0, the right motor reads
forward=1/backward=0, and both enables read 0. -/
theorem C3_stop_frame :
    (∀ ops : List Op,
      applyOp (runOps mcInit ops) Op.stop 22 = 0 ∧
      applyOp (runOps mcInit ops) Op.stop 25 = 0 ∧
      applyOp (runOps mcInit ops) Op.stop 17 = runOps mcInit ops 17 ∧
      applyOp (runOps mcInit ops) Op.stop 18 = runOps mcInit ops 18 ∧
      applyOp (runOps mcInit ops) Op.stop 23 = runOps mcInit ops 23 ∧
      applyOp (runOps mcInit ops) Op.stop 24 = runOps mcInit ops 24) ∧
    (applyOp (runOps mcInit [Op.moveForward (1/2), Op.turnLeft (1/2)]) Op.stop 17 = 0 ∧
     applyOp (runOps mcInit [Op.moveForward (1/2), Op.turnLeft (1/2)]) Op.stop 18 = 1 ∧
     applyOp (runOps mcInit [Op.moveForward (1/2), Op.turnLeft (1/2)]) Op.stop 23 = 1 ∧
     applyOp (runOps mcInit [Op.moveForward (1/2), Op.turnLeft (1/2)]) Op.stop 24 = 0 ∧
     applyOp (runOps mcInit [Op.moveForward (1/2), Op.turnLeft (1/2)]) Op.stop 22 = 0 ∧
     applyOp (runOps mcInit [Op.moveForward (1/2), Op.turnLeft (1/2)]) Op.stop 25 = 0) := by
  constructor
  · intro ops
    exact ⟨truncQ_zero, truncQ_zero, rfl, rfl, rfl, rfl⟩
  · exact ⟨rfl, rfl, rfl, rfl, truncQ_zero, truncQ_zero⟩

/-- The clamp the real driver applies to the raw truncated percent
agrees, for every speed, with the claim's clamp-then-convert value. -/
theorem clampInt_truncQ_eq (sp : ℚ) :
    clampInt (truncQ (sp * 100)) = clampPercent sp := by
  rcases le_or_lt 0 sp with h0 | h0
  · rcases le_or_lt sp 1 with h1 | h1
    · rw [clampInt_of_unit h0 h1, clampPercent, min_eq_right h1, max_eq_right h0,
        truncQ_of_nonneg (mul_nonneg h0 (by norm_num))]
    · have hnn : (0 : ℚ) ≤ sp * 100 := mul_nonneg h0 (by norm_num)
      have hge : (100 : ℤ) ≤ ⌊sp * 100⌋ := by
        have hle : (100 : ℚ) ≤ sp * 100 := by nlinarith
        calc (100 : ℤ) = ⌊(100 : ℚ)⌋ := by norm_num
          _ ≤ ⌊sp * 100⌋ := Int.floor_le_floor hle
      rw [clampInt, truncQ_of_nonneg hnn, min_eq_left hge, clampPercent,
        min_eq_left h1.le, max_eq_right (by norm_num : (0 : ℚ) ≤ 1),
        truncQ_of_nonneg (by norm_num)]
      norm_num
  · have hneg : sp * 100 < 0 := mul_neg_of_neg_of_pos h0 (by norm_num)
    have hc : truncQ (sp * 100) = ⌈sp * 100⌉ := truncQ_of_neg hneg
    have hle : ⌈sp * 100⌉ ≤ 0 := Int.ceil_le.mpr (by exact_mod_cast hneg.le)
    rw [clampInt, hc, min_eq_right (le_trans hle (by norm_num)), max_eq_left hle,
      clampPercent, min_eq_right (le_trans h0.le (by norm_num)), max_eq_left h0.le,
      truncQ_of_nonneg (by norm_num)]
    norm_num

/-- Claim C4, refuted as stated: with the simulated driver,
`move_forward(1.5)` stores 150 on the enable pins — the raw truncated
percent, not the claim's clamped value 100. -/
theorem C4_counterexample :
    runOps mcInit [Op.moveForward (3/2)] 22 = 150 ∧
    clampPercent (3/2) = 100 ∧
    ¬ runOps mcInit [Op.moveForward (3/2)] 22 = clampPercent (3/2) := by
  have h1 : runOps mcInit [Op.moveForward (3/2)] 22 = 150 := by
    show truncQ ((3/2 : ℚ) * 100) = 150
    rw [truncQ_of_nonneg (by norm_num)]
    norm_num
  have h2 : clampPercent (3/2) = 100 := by
    rw [clampPercent, min_eq_left (by norm_num : (1 : ℚ) ≤ 3/2),
      max_eq_right (by norm_num : (0 : ℚ) ≤ 1), truncQ_of_nonneg (by norm_num)]
    norm_num
  refine ⟨h1, h2, ?_⟩
  rw [h1, h2]
  decide

/-- Claim C4 amended: no movement operation raises on an out-of-range
speed (the model operations are total); the hardware driver records the
clamp of the speed into [0,1] converted to percent on both enable pins,
while the simulated driver stores the raw truncated percent unclamped
(150 for speed 1.5, −20 for speed −0.2). -/
theorem C4_clamping_behavior (sp : ℚ) (k : MoveKind) (s : Nat → Int) :
    (applyOpReal realInit (mkOp k sp)).pins 22 = clampPercent sp ∧
    (applyOpReal realInit (mkOp k sp)).pins 25 = clampPercent sp ∧
    applyOp s (mkOp k sp) 22 = truncQ (sp * 100) ∧
    applyOp s (mkOp k sp) 25 = truncQ (sp * 100) :=
  ⟨by rw [realEnableLeft, clampInt_truncQ_eq],
   by rw [realEnableRight, clampInt_truncQ_eq],
   mockEnableLeft sp k s, mockEnableRight sp k s⟩

/-- Claim C5, refuted as stated: with the unrecognized mode `BAD`,
`setup_pin` returns successfully on both driver variants — the mock
stores 0, the real driver leaves its state untouched — instead of
raising. -/
theorem C5_counterexample :
    mockSetupPin 5 ("BAD") mcInit = Except.ok (upd mcInit 5 0) ∧
    realSetupPin 5 ("BAD") realEmpty = Except.ok realEmpty :=
  ⟨rfl, rfl⟩

/-- Claim C5 amended: for every mode outside {OUT, PWM}, `setup_pin`
silently succeeds on both variants — the mock initializes the stored
value to 0 as for any mode, and the real driver's if/elif falls through
leaving the pin unconfigured — and neither variant raises. -/
theorem C5_silent_mode (p : Nat) (mode : String) (s : Nat → Int) (r : RealState)
    (h1 : mode ≠ "OUT") (h2 : mode ≠ "PWM") :
    mockSetupPin p mode s = Except.ok (upd s p 0) ∧
    realSetupPin p mode r = Except.ok r := by
  refine ⟨rfl, ?_⟩
  rw [realSetupPin, if_neg h1, if_neg h2]

/-- Witness for `C5_silent_mode` at pin 5 with mode `BAD`. -/
theorem C5_silent_mode_witness :
    ("BAD" : String) ≠ "OUT" ∧ ("BAD" : String) ≠ "PWM" ∧
    (mockSetupPin 5 ("BAD") mcInit = Except.ok (upd mcInit 5 0) ∧
     realSetupPin 5 ("BAD") realInit = Except.ok realInit) :=
  ⟨by decide, by decide,
   C5_silent_mode 5 ("BAD") mcInit realInit (by decide) (by decide)⟩

/-- Detection as written agrees with the amended description: a readable
descriptor decides by itself, and only two unreadable descriptors reach
the flag and importability checks. -/
theorem detect_eq (e : PiEnv) : is_running_on_pi e = amendedDetect e := by
  obtain ⟨dt, cpu, flag, imp⟩ := e
  cases dt with
  | some c =>
    simp [is_running_on_pi, amendedDetect, checkDevicetreePos]
  | none =>
    cases cpu with
    | some c =>
      simp [is_running_on_pi, amendedDetect, checkDevicetreePos, checkCpuPos]
    | none =>
      cases henv : envTruthy flag <;>
        simp [is_running_on_pi, amendedDetect, checkDevicetreePos, checkCpuPos, henv]

/-- The factory's result as a single case split on detection, the real
construction succeeding, and the mock import succeeding. -/
theorem factory_eq (e : FactoryEnv) :
    create_gpio_controller e =
      (if is_running_on_pi e.pi && e.realImportOk && e.realCtorOk then
         Except.ok GpioDriver.real
       else if e.mockImportOk then Except.ok GpioDriver.mock
       else Except.error ("No GPIO controller available")) := by
  cases h : is_running_on_pi e.pi
  · simp [create_gpio_controller, create_mock_gpio, h]
  · cases hr : e.realImportOk && e.realCtorOk <;>
      simp [create_gpio_controller, create_mock_gpio, h, hr]

/-- Claim C6, refuted as stated: in an environment whose device-tree
model file is readable but names another board while the override flag
is set and the real driver would construct, the code's detection is
negative and the factory returns the mock — whereas the claim's
first-positive detection is positive and selects the real driver. -/
theorem C6_counterexample :
    is_running_on_pi factoryCexEnv.pi = false ∧
    specIsPi factoryCexEnv.pi = true ∧
    create_gpio_controller factoryCexEnv = Except.ok GpioDriver.mock ∧
    specFactory factoryCexEnv = Except.ok GpioDriver.real :=
  ⟨by decide, by decide, rfl, rfl⟩

/-- Claim C6 amended: the detection checks run in the fixed order, but a
readable device-tree or CPU descriptor decides the outcome by itself
(its negative result also short-circuits); only the flag and
importability checks short-circuit solely on a positive.  A positive
detection selects the hardware branch, any construction failure there
falls back to the simulated driver, a negative detection selects the
simulated driver directly, and the factory fails only when even the
mock import fails, with the single error the code raises. -/
theorem C6_factory_characterization (e : FactoryEnv) :
    is_running_on_pi e.pi = amendedDetect e.pi ∧
    create_gpio_controller e =
      (if is_running_on_pi e.pi && e.realImportOk && e.realCtorOk then
         Except.ok GpioDriver.real
       else if e.mockImportOk then Except.ok GpioDriver.mock
       else Except.error ("No GPIO controller available")) :=
  ⟨detect_eq e.pi, factory_eq e⟩

/-- The OpenCV candidate succeeds exactly when it opens, nothing raises,
and the test capture yields a non-empty frame. -/
theorem tryOpenCV_ok (e : CvEnv) : (tryOpenCV e).ok = cvSucc e := by
  obtain ⟨o, s, r, k⟩ := e
  cases o <;> cases s <;> cases r <;> cases k <;> rfl

/-- The picamera2 candidate succeeds exactly when it constructs,
configures, and its test capture yields a non-empty frame. -/
theorem tryPi2_ok (e : Pi2Env) : (tryPi2 e).ok = pi2Succ e := by
  obtain ⟨i, c, g, cr, ne⟩ := e
  cases i <;> cases c <;> cases g <;> cases cr <;> cases ne <;> rfl

/-- The legacy candidate succeeds exactly when import, construction and
configuration succeed — with no test capture in the condition. -/
theorem tryLegacy_ok (e : LegacyEnv) : (tryLegacy e).ok = legSucc e := by
  obtain ⟨i, c, g⟩ := e
  cases i <;> cases c <;> cases g <;> rfl

/-- The legacy candidate never performs a test capture. -/
theorem tryLegacy_noCapture (e : LegacyEnv) : (tryLegacy e).testCaptured = false := by
  obtain ⟨i, c, g⟩ := e
  cases i <;> cases c <;> cases g <;> rfl

/-- The OpenCV candidate releases its handle exactly on the paths that
neither raise nor succeed. -/
theorem tryOpenCV_released (e : CvEnv) :
    (tryOpenCV e).released = (!cvRaised e && !cvSucc e) := by
  obtain ⟨o, s, r, k⟩ := e
  cases o <;> cases s <;> cases r <;> cases k <;> rfl

/-- The picamera2 candidate stops its camera exactly on the paths that
acquired it and neither raised out nor succeeded. -/
theorem tryPi2_released (e : Pi2Env) :
    (tryPi2 e).released = (pi2Acquired e && !pi2Raised e && !pi2Succ e) := by
  obtain ⟨i, c, g, cr, ne⟩ := e
  cases i <;> cases c <;> cases g <;> cases cr <;> cases ne <;> rfl

/-- The probe chain's selected tag is the first candidate whose amended
success condition holds. -/
theorem setupCamera_tag (env : CamEnv) : (setupCamera env).tag = expectedTag env := by
  simp only [setupCamera, expectedTag, tryOpenCV_ok, tryPi2_ok, tryLegacy_ok]
  cases h1 : cvSucc env.cv <;> cases h2 : pi2Succ env.pi2 <;> cases h3 : legSucc env.leg <;>
    simp [h1, h2, h3]

/-- Claim C7, refuted as stated: when OpenCV fails to open and the
picamera2 import fails, the legacy candidate is selected as the active
backend even though no test capture was performed for it. -/
theorem C7_counterexample : ¬ probeClaim camCexEnv := by
  unfold probeClaim
  decide

/-- Claim C7 amended: the probe chain tries OpenCV, picamera2 and legacy
picamera in that fixed order and selects the first that succeeds; the
first two succeed only on a non-empty test capture, but the legacy
candidate is accepted on open and configuration alone, with no test
capture; a failed candidate releases the resources it acquired on the
paths that do not raise, while a candidate that raises after acquiring
returns without releasing. -/
theorem C7_probe_characterization (env : CamEnv) :
    (setupCamera env).tag = expectedTag env ∧
    (tryOpenCV env.cv).ok = cvSucc env.cv ∧
    (tryPi2 env.pi2).ok = pi2Succ env.pi2 ∧
    (tryLegacy env.leg).ok = legSucc env.leg ∧
    (tryLegacy env.leg).testCaptured = false ∧
    (tryOpenCV env.cv).released = (!cvRaised env.cv && !cvSucc env.cv) ∧
    (tryPi2 env.pi2).released = (pi2Acquired env.pi2 && !pi2Raised env.pi2 && !pi2Succ env.pi2) :=
  ⟨setupCamera_tag env, tryOpenCV_ok env.cv, tryPi2_ok env.pi2, tryLegacy_ok env.leg,
   tryLegacy_noCapture env.leg, tryOpenCV_released env.cv, tryPi2_released env.pi2⟩

/-- `_try_opencv` always assigns `self.camera` a non-None object. -/
theorem tryOpenCV_camSet (e : CvEnv) : (tryOpenCV e).camSet = some true := by
  obtain ⟨o, s, r, k⟩ := e
  cases o <;> cases s <;> cases r <;> cases k <;> rfl

/-- A successful picamera2 attempt leaves `self.camera` non-None. -/
theorem tryPi2_ok_camSet (e : Pi2Env) (h : (tryPi2 e).ok = true) :
    (tryPi2 e).camSet = some true := by
  obtain ⟨i, c, g, cr, ne⟩ := e
  cases i <;> cases c <;> cases g <;> cases cr <;> cases ne <;>
    first | rfl | exact absurd h (by decide)

/-- A successful legacy attempt leaves `self.camera` non-None. -/
theorem tryLegacy_ok_camSet (e : LegacyEnv) (h : (tryLegacy e).ok = true) :
    (tryLegacy e).camSet = some true := by
  obtain ⟨i, c, g⟩ := e
  cases i <;> cases c <;> cases g <;> first | rfl | exact absurd h (by decide)

/-- Whenever the probe chain selects a backend, the camera reference it
leaves behind is non-None, so `get_frame`'s guard does not fire. -/
theorem setupCamera_present (env : CamEnv)
    (h : (setupCamera env).tag.isSome = true) : (setupCamera env).present = true := by
  unfold setupCamera
  unfold setupCamera at h
  cases h1 : (tryOpenCV env.cv).ok
  · cases h2 : (tryPi2 env.pi2).ok
    · cases h3 : (tryLegacy env.leg).ok
      · simp [h1, h2, h3] at h
      · simp [h1, h2, h3, tryLegacy_ok_camSet env.leg h3, updPresent]
    · simp [h1, h2, tryPi2_ok_camSet env.pi2 h2, updPresent]
  · simp [h1, tryOpenCV_camSet, updPresent]

/-- Claim C8: in the stream state any probe outcome leaves behind, a
None camera type makes `get_frame` return no frame with zero capture
calls; a selected backend makes it perform exactly one capture call,
and a raising capture is converted by the except handler into no frame
instead of propagating (the body alone would escape as an error). -/
theorem C8_get_frame_safety (env : CamEnv) (oc : CapOutcome) :
    ((stateAfterSetup env).camera_type = none →
      get_frame (stateAfterSetup env) oc = none ∧ captureCalls (stateAfterSetup env) = 0) ∧
    (∀ t : CamTag, (stateAfterSetup env).camera_type = some t →
      captureCalls (stateAfterSetup env) = 1 ∧
      get_frame (stateAfterSetup env) CapOutcome.raises = none ∧
      get_frame_body (stateAfterSetup env) CapOutcome.raises = Except.error ()) := by
  constructor
  · intro h
    have ht : (setupCamera env).tag = none := h
    constructor
    · simp [get_frame, stateAfterSetup, ht]
    · simp [captureCalls, stateAfterSetup, ht]
  · intro t ht
    have htag : (setupCamera env).tag = some t := ht
    have hsome : (setupCamera env).tag.isSome = true := by rw [htag]; rfl
    have hp := setupCamera_present env hsome
    refine ⟨?_, ?_, ?_⟩
    · simp [captureCalls, stateAfterSetup, htag, hp]
    · cases t <;> simp [get_frame, get_frame_body, stateAfterSetup, htag, hp]
    · cases t <;> simp [get_frame_body, stateAfterSetup, htag]

/-- Witness for `C8_get_frame_safety`: with every candidate failing,
`get_frame` returns no frame with zero capture calls; with OpenCV
selected, it makes exactly one capture call. -/
theorem C8_get_frame_safety_witness :
    (get_frame (stateAfterSetup camFailEnv) CapOutcome.good = none ∧
     captureCalls (stateAfterSetup camFailEnv) = 0) ∧
    captureCalls (stateAfterSetup camOkEnv) = 1 :=
  ⟨(C8_get_frame_safety camFailEnv CapOutcome.good).1 rfl,
   ((C8_get_frame_safety camOkEnv CapOutcome.good).2 CamTag.opencv rfl).1⟩

/-- Claim C9: each generator iteration behaves exactly as specified — a
frame resets the consecutive error count, every failure increments it,
and the delay is 1.0 s on an exception (overriding the rest), 0.5 s
when the updated count exceeds 5, and `1/framerate` otherwise. -/
theorem C9_delay_policy (fr : ℚ) (c : Nat) (o : IterOutcome) :
    genStep fr c o = genStepSpec fr c o ∧
    (genStep fr c IterOutcome.frame).1 = 0 ∧
    (genStep fr c IterOutcome.noframe).1 = c + 1 ∧
    (genStep fr c IterOutcome.raises).1 = c + 1 ∧
    (genStep fr c IterOutcome.raises).2 = 1 :=
  ⟨by cases o <;> rfl, rfl, rfl, rfl, rfl⟩

/-- Claim C10: the consecutive error count is local to each
`generate_frames` invocation — a generator that has taken six
consecutive no-frame iterations is sleeping the degraded 0.5 s, yet
after `stop_streaming` then `start_streaming` a fresh invocation's
first non-raising iteration sleeps the normal `1/framerate` again. -/
theorem C10_fresh_error_count (s : StreamState) (fr : ℚ) (o : IterOutcome)
    (rest : List IterOutcome) (h : o ≠ IterOutcome.raises) :
    (generateFrames ⟨true⟩ fr (List.replicate 6 IterOutcome.noframe)).getLast? =
      some ((1 : ℚ) / 2) ∧
    (generateFrames (start_streaming (stop_streaming s)) fr (o :: rest)).head? =
      some (1 / fr) := by
  constructor
  · rfl
  · cases o with
    | frame => rfl
    | noframe => rfl
    | raises => exact absurd rfl h

/-- Witness for `C10_fresh_error_count` at framerate 30 with a first
frame outcome. -/
theorem C10_fresh_error_count_witness :
    IterOutcome.frame ≠ IterOutcome.raises ∧
    ((generateFrames ⟨true⟩ 30 (List.replicate 6 IterOutcome.noframe)).getLast? =
       some ((1 : ℚ) / 2) ∧
     (generateFrames (start_streaming (stop_streaming ⟨false⟩)) 30
        [IterOutcome.frame]).head? = some (1 / 30)) :=
  ⟨by decide, C10_fresh_error_count ⟨false⟩ 30 IterOutcome.frame [] (by decide)⟩
